import Mathlib

/-!
Verification of the Position & Risk Lifecycle Engine of the mastertrader
repository, as a shallow embedding in Lean 4.

Machine reals (Python floats / Decimals) are modelled as exact rationals;
Python `int(x)` (truncation toward zero) is modelled by `pyInt`; fallible
external calls (brokerage queries, market-data downloads, store reads) are
modelled as `Except Unit` / `Option` inputs supplied by the caller, matching
the repository's treatment of the brokerage client and persistent store as
external collaborators.
-/

namespace MasterTrader

/-! ### Configuration constants (config/config.py) -/

def ORDER_SIZE_PERCENT : ℚ := 0.01

def RETAIN_PERCENT : ℚ := 0.25

def MAX_TOTAL_INVESTED : ℚ := 0.80

def MIN_CASH_RESERVE : ℚ := 0.20

def MAX_POSITION_BUFFER : ℚ := 0.05

def PROFIT_TARGET_PERCENT : ℚ := 0.01

def CORE_UNWIND_PERCENT : ℚ := 0.05

/-- Per-symbol core target weights (`CORE_POSITIONS` in config/config.py). -/
def CORE_POSITIONS : List (String × ℚ) :=
  [("SOXL", 0.05), ("TQQQ", 0.03), ("UPRO", 0.02), ("SPXL", 0.04)]

/-- `CORE_POSITIONS.get(symbol, 0)` in Python. -/
def corePositionsGet (symbol : String) : ℚ :=
  ((CORE_POSITIONS.find? fun p => p.1 = symbol).map Prod.snd).getD 0

def RESUBMIT_ORDERS_ACROSS_SESSIONS : Bool := true

def ORDER_RESUBMIT_DELAY : ℚ := 5

/-- Python `int(x)`: truncation toward zero. -/
def pyInt (q : ℚ) : ℤ := if 0 ≤ q then ⌊q⌋ else ⌈q⌉

/-! ### Core Cycle Accountant
(`OrderManager.calculate_core_building_requirements`, core/order_manager.py)

The Python body reads `CORE_POSITIONS`, `ORDER_SIZE_PERCENT` and
`RETAIN_PERCENT` from the configuration module and queries the brokerage for
the position size and price; here the configuration fractions and the queried
values are explicit arguments.  A `ZeroDivisionError` (value per cycle zero,
which in ℚ also covers the dependent divisions) is caught by the method's
`except` clause, which returns `None`. -/

structure CoreReq where
  total_cycles_needed : ℤ
  cycles_completed : ℤ
  cycles_remaining : ℤ
  target_percentage : ℚ
  current_percentage : ℚ
  value_per_cycle : ℚ
  deriving Repr, DecidableEq

def calculate_core_building_requirements (core_target account_value osf rf
    position price : ℚ) : Option CoreReq :=
  let target_value := account_value * core_target
  let value_per_cycle := account_value * osf * rf
  if value_per_cycle = 0 then none
  else
    let total_cycles := pyInt (target_value / value_per_cycle)
    let current_value := position * price
    let current_percentage := current_value / account_value
    let cycles_completed := pyInt (current_percentage / (osf * rf))
    some ⟨total_cycles, cycles_completed, total_cycles - cycles_completed,
      core_target, current_percentage, value_per_cycle⟩

/-! ### Risk State Machine (`SignalGenerator`, core/signal_generator.py)

External effects are modelled as inputs:
* `rsiState : Option RsiReadings` — result of `get_rsi_state` (its own
  `except` clause turns any error into an empty dict, here `none`);
* `cpFetch`, `yhFetch : Except Unit ℚ` — the `yf.download` expressions for the
  current price and the 52-week high; an error there propagates to
  `check_risk_state`'s outer `except` clause;
* `athFetch : Except Unit ℚ` — the download inside `get_all_time_high`, whose
  own `except` clause converts an error into `0.0`;
* `dbPrev : Except Unit (Option RiskStateV)` — the `risk_states` query inside
  `get_last_risk_state` (`.error` = the query raised, `.ok none` = no rows).

The result records the resolved state, the `RiskState` record appended via
`log_risk_state_change` (if any), and the price milestone emitted via
`log_price_milestone` (if any).  `52_WEEK_HIGH` is spelled `WEEK_52_HIGH`
because a Lean name cannot start with a digit. -/

inductive RiskStateV where
  | RISK_ON
  | RISK_OFF
  | NEUTRAL
  deriving Repr, DecidableEq

structure RsiReadings where
  weekly_rsi : ℚ
  daily_rsi : ℚ
  current_rsi : ℚ
  deriving Repr, DecidableEq

inductive Milestone where
  | WEEK_52_HIGH
  | ALL_TIME_HIGH
  deriving Repr, DecidableEq

structure RiskEvalResult where
  state : RiskStateV
  logged : Option RiskStateV
  milestone : Option Milestone
  deriving Repr, DecidableEq

/-- `SignalGenerator.get_all_time_high`: any error fetching the maximal
historical high is caught locally and turned into `0.0`. -/
def get_all_time_high (athFetch : Except Unit ℚ) : ℚ :=
  match athFetch with
  | .ok v => v
  | .error _ => 0

/-- `SignalGenerator.get_last_risk_state`: most recent `risk_states` row, with
`NEUTRAL` when no row exists and `RISK_OFF` when the query itself errors. -/
def get_last_risk_state (dbPrev : Except Unit (Option RiskStateV)) : RiskStateV :=
  match dbPrev with
  | .error _ => .RISK_OFF
  | .ok none => .NEUTRAL
  | .ok (some s) => s

/-- `SignalGenerator.check_risk_state`, with each early `return` branch mapped
to a `RiskEvalResult`.  The final `except` clause maps a price-fetch error to
`RISK_OFF` and still appends a record. -/
def check_risk_state (rsiState : Option RsiReadings) (cpFetch yhFetch : Except Unit ℚ)
    (athFetch : Except Unit ℚ) (dbPrev : Except Unit (Option RiskStateV)) :
    RiskEvalResult :=
  match rsiState with
  | none => ⟨.RISK_OFF, some .RISK_OFF, none⟩
  | some rsi =>
    match cpFetch, yhFetch with
    | .error _, _ => ⟨.RISK_OFF, some .RISK_OFF, none⟩
    | .ok _, .error _ => ⟨.RISK_OFF, some .RISK_OFF, none⟩
    | .ok current_price, .ok year_high =>
      let all_time_high := get_all_time_high athFetch
      if rsi.weekly_rsi > 70 then ⟨.RISK_OFF, some .RISK_OFF, none⟩
      else if current_price ≥ year_high then
        ⟨.RISK_OFF, some .RISK_OFF, some .WEEK_52_HIGH⟩
      else if current_price ≥ all_time_high then
        ⟨.RISK_OFF, some .RISK_OFF, some .ALL_TIME_HIGH⟩
      else
        let previous_state := get_last_risk_state dbPrev
        if previous_state = .RISK_OFF then
          if rsi.daily_rsi < 30 then ⟨.RISK_ON, some .RISK_ON, none⟩
          else ⟨.RISK_OFF, none, none⟩
        else ⟨previous_state, none, none⟩

/-! The specification side of claim C5: the six numbered transition rules of
spec §4.1, written from the spec's words, over the readings the claim
enumerates, to be compared with `check_risk_state`. -/

structure SpecReadings where
  weekly_rsi : ℚ
  daily_rsi : ℚ
  current_price : ℚ
  year_high : ℚ
  all_time_high : ℚ
  deriving Repr, DecidableEq

/-- The spec's precedence rules, first match wins: (1) unavailable inputs,
(2) weekly RSI above 70, (3) 52-week high, (4) all-time high, (5) previous
state RISK_OFF resolved by the daily RSI, (6) carry the previous state
forward. -/
def specRiskRules (avail : Option SpecReadings) (prev : RiskStateV) :
    RiskStateV × Option Milestone :=
  match avail with
  | none => (.RISK_OFF, none)
  | some r =>
    if r.weekly_rsi > 70 then (.RISK_OFF, none)
    else if r.current_price ≥ r.year_high then (.RISK_OFF, some .WEEK_52_HIGH)
    else if r.current_price ≥ r.all_time_high then (.RISK_OFF, some .ALL_TIME_HIGH)
    else if prev = .RISK_OFF then
      if r.daily_rsi < 30 then (.RISK_ON, none) else (.RISK_OFF, none)
    else (prev, none)

/-- Translation of the embedded inputs into the spec's reading record:
readings are available when the RSI dict is non-empty and both price
downloads succeed; the all-time high the code evaluates against is the
(error-defaulted) result of `get_all_time_high`. -/
def readingsOf (rsiState : Option RsiReadings) (cpFetch yhFetch : Except Unit ℚ)
    (athFetch : Except Unit ℚ) : Option SpecReadings :=
  match rsiState, cpFetch, yhFetch with
  | some rsi, .ok cp, .ok yh =>
      some ⟨rsi.weekly_rsi, rsi.daily_rsi, cp, yh, get_all_time_high athFetch⟩
  | _, _, _ => none

/-! ### Order Lifecycle Manager (`OrderManager`, core/order_manager.py) -/

inductive OrderStatus where
  | SUBMITTED
  | PARTIALLY_FILLED
  | FILLED
  | CANCELLED
  | REJECTED
  deriving Repr, DecidableEq

def OrderStatus.isTerminal : OrderStatus → Bool
  | .FILLED => true
  | .CANCELLED => true
  | .REJECTED => true
  | _ => false

inductive Action where
  | BUY
  | SELL
  deriving Repr, DecidableEq

/-- Observable effects of `OrderManager.cancel_order`: the returned boolean,
whether `ib.cancelOrder` was invoked, and the status written through
`db.update_order_status` (if any). -/
structure CancelResult where
  success : Bool
  cancelRequested : Bool
  recordedStatus : Option OrderStatus
  deriving Repr, DecidableEq

/-- `OrderManager.cancel_order`.  `lookup` is the store's answer to
`db.get_order(order_id)` (`none` = unknown order, otherwise the stored order's
current status); `ibCancelOk` is whether the `ib.cancelOrder` call returns
without raising.  When the order is found, the brokerage cancellation is
requested and, if that call returns, the status is immediately written as
`CANCELLED`; when `ib.cancelOrder` raises, the `except` clause returns
`False` after the request was already issued. -/
def cancel_order (lookup : Option OrderStatus) (ibCancelOk : Bool) : CancelResult :=
  match lookup with
  | none => ⟨false, false, none⟩
  | some _ =>
    if ibCancelOk then ⟨true, true, some .CANCELLED⟩
    else ⟨false, true, none⟩

/-! Retry of brokerage placement (`OrderManager._retryable_place_order`):
`tenacity.retry(stop=stop_after_attempt(3), wait=wait_exponential(multiplier=1,
min=2, max=10), reraise=True)`.  The decorator's default retry predicate
retries on any raised exception; one attempt's outcome is the behaviour of the
`ib.placeOrder` call body on that attempt. -/

inductive Attempt where
  | ok
  | raiseTransient
  | raiseTerminal
  deriving Repr, DecidableEq

inductive RetryResult where
  | placed (attemptsUsed : ℕ)
  | failed (attemptsUsed : ℕ)
  deriving Repr, DecidableEq

/-- The tenacity loop: run attempts in order, stopping at the first attempt
that does not raise, or after `remaining` attempts have been consumed (the
last exception is then re-raised). -/
def retryLoop : List Attempt → ℕ → ℕ → RetryResult
  | [], used, _ => .failed used
  | a :: rest, used, remaining =>
    match a with
    | .ok => .placed (used + 1)
    | _ =>
      if remaining ≤ 1 then .failed (used + 1)
      else retryLoop rest (used + 1) (remaining - 1)

/-- `OrderManager._retryable_place_order` over the sequence of per-attempt
brokerage outcomes. -/
def retryable_place_order (outcomes : List Attempt) : RetryResult :=
  retryLoop outcomes 0 3

/-- Number of brokerage attempts consumed. -/
def RetryResult.attempts : RetryResult → ℕ
  | .placed n => n
  | .failed n => n

/-- Number of orders that result from the run: one when some attempt
succeeded, none otherwise. -/
def RetryResult.ordersPlaced : RetryResult → ℕ
  | .placed _ => 1
  | .failed _ => 0

/-- `tenacity.wait_exponential(multiplier=1, min=2, max=10)`: the delay before
retrying after the `n`-th failed attempt (`n ≥ 1`), clamped into `[2, 10]`. -/
def retryWait (n : ℕ) : ℚ := max 2 (min ((2 : ℚ) ^ n) 10)

/-- Input validation of `OrderManager.place_limit_order`: an invalid action,
a non-positive quantity or a non-positive limit price raise `ValueError`
before any brokerage attempt; the method's `except` clause turns this into an
immediate `False` with zero attempts. -/
def place_limit_order (_action : Action) (quantity : ℤ) (limit_price : ℚ)
    (outcomes : List Attempt) : RetryResult :=
  if quantity ≤ 0 ∨ limit_price ≤ 0 then .failed 0
  else retryable_place_order outcomes

/-! ### Session management (`OrderManager.get_current_session`,
`should_cancel_order`, `handle_session_transition`)

Wall-clock times `'HH:MM:SS'` are compared as zero-padded strings in Python,
which coincides with chronological order; they are modelled as seconds since
midnight. -/

structure SessionCfg where
  start : ℕ
  stop : ℕ
  cancel_at_end : Bool
  deriving Repr, DecidableEq

/-- `ORDER_SESSIONS` (config/config.py): PREMARKET 04:00–09:30,
RTH 09:30–16:00, AFTERHOURS 16:00–20:00, each with `cancel_at_end = True`. -/
def ORDER_SESSIONS : List (String × SessionCfg) :=
  [("PREMARKET", ⟨14400, 34200, true⟩),
   ("RTH", ⟨34200, 57600, true⟩),
   ("AFTERHOURS", ⟨57600, 72000, true⟩)]

/-- `OrderManager.get_current_session`: first session whose
`start <= now < end`, else `None`. -/
def get_current_session (now : ℕ) : Option (String × SessionCfg) :=
  ORDER_SESSIONS.find? fun p => p.2.start ≤ now ∧ now < p.2.stop

/-- `OrderManager.should_cancel_order`.  The `order_time` parameter is
accepted and ignored, exactly as in the source; the decision only looks at
the wall clock: outside every session the answer is `True`, inside a session
it is `cancel_at_end && now >= session_end`. -/
def should_cancel_order (_order_time : ℕ) (now : ℕ) : Bool :=
  match get_current_session now with
  | none => true
  | some p => p.2.cancel_at_end && decide (p.2.stop ≤ now)

/-- An entry of `OrderManager.active_orders`. -/
structure ActiveOrderInfo where
  time : ℕ
  symbol : String
  action : Action
  quantity : ℤ
  price : ℚ
  deriving Repr, DecidableEq

inductive SessionEvent where
  | cancel (order_id : ℕ)
  | submitNew (symbol : String) (action : Action) (quantity : ℤ) (price : ℚ)
  deriving Repr, DecidableEq

/-- `OrderManager.handle_session_transition`: for every tracked active order,
if `should_cancel_order` holds now, cancel it and — when
`RESUBMIT_ORDERS_ACROSS_SESSIONS` — submit a brand-new limit order with the
same symbol, action, quantity and price through `place_limit_order`. -/
def handle_session_transition (now : ℕ) (active : List (ℕ × ActiveOrderInfo)) :
    List SessionEvent :=
  active.flatMap fun p =>
    if should_cancel_order p.2.time now then
      .cancel p.1 ::
        (if RESUBMIT_ORDERS_ACROSS_SESSIONS then
          [.submitNew p.2.symbol p.2.action p.2.quantity p.2.price]
        else [])
    else []

/-- `OrderManager.verify_position_limits`.  Brokerage queries are inputs:
`positionFetch` (`get_position_size`, which converts its own errors to `0`),
`accountFetch` (`ib.accountSummaryAsync` plus the NetLiquidation extraction —
an error there reaches the method's own `except` clause, hence `False`),
`priceFetch` (`get_current_price`, errors converted to `0.0`, after which the
share-limit division raises `ZeroDivisionError`, hence `False`) and
`cashFetch` (`get_cash_balance`, errors converted to `0.0`).  A zero account
value makes the cash-ratio division raise, hence `False`. -/
def verify_position_limits (positionFetch : Except Unit ℤ)
    (accountFetch priceFetch cashFetch : Except Unit ℚ)
    (core_target : ℚ) (quantity : ℤ) (action : Action) : Bool :=
  let position := match positionFetch with | .ok p => p | .error _ => 0
  match accountFetch with
  | .error _ => false
  | .ok total_value =>
    let price := match priceFetch with | .ok v => v | .error _ => 0
    if price = 0 then false
    else
      let max_allowed := core_target + MAX_POSITION_BUFFER
      let max_shares := pyInt (total_value * max_allowed / price)
      if action = .BUY ∧ max_shares < position + quantity then false
      else if action = .BUY then
        let order_value := (quantity : ℚ) * price
        let cash := match cashFetch with | .ok v => v | .error _ => 0
        if total_value = 0 then false
        else if (cash - order_value) / total_value < MIN_CASH_RESERVE then false
        else true
      else true

/-! ### Portfolio guardrails (`PortfolioManager`, core/portfolio_manager.py) -/

/-- `PortfolioManager.CORE_TARGET_PERCENT` (constructor constant, percent). -/
def CORE_TARGET_PERCENT : ℚ := 5

/-- `PortfolioManager.MAX_EXPOSURE_PERCENT` (constructor constant, percent). -/
def MAX_EXPOSURE_PERCENT : ℚ := 10

/-- `PortfolioManager.calculate_portfolio_value`: NetLiquidation from the
account values, `0.0` when the query raises (its `except` clause). -/
def calculate_portfolio_value (netLiq : Except Unit ℚ) : ℚ :=
  match netLiq with
  | .ok v => v
  | .error _ => 0

/-- `PortfolioManager.get_current_price`: market price, `Decimal('0')` when
the market-data request raises. -/
def get_current_price (tick : Except Unit ℚ) : ℚ :=
  match tick with
  | .ok v => v
  | .error _ => 0

/-- `PortfolioManager.calculate_position_value`: the summed stored quantities
times the current price, `Decimal('0')` when the store query raises. -/
def calculate_position_value (positionsFetch : Except Unit (List ℤ))
    (tick : Except Unit ℚ) : ℚ :=
  match positionsFetch with
  | .error _ => 0
  | .ok qtys => ((qtys.sum : ℤ) : ℚ) * get_current_price tick

/-- `PortfolioManager.check_exposure_limit`: allow while the position value is
at most `portfolio_value * max_limit`, where the limit is the core cap for
`'CORE'` lots and the general exposure cap otherwise. -/
def check_exposure_limit (positionsFetch : Except Unit (List ℤ))
    (tick : Except Unit ℚ) (netLiq : Except Unit ℚ) (lot_type : String) : Bool :=
  let position_value := calculate_position_value positionsFetch tick
  let portfolio_value := calculate_portfolio_value netLiq
  let max_limit :=
    (if lot_type = "CORE" then CORE_TARGET_PERCENT else MAX_EXPOSURE_PERCENT) / 100
  decide (position_value ≤ portfolio_value * max_limit)

/-- `PortfolioManager.check_cash_reserves`.  `accountFetch` is the
`ib.accountValues` query for AvailableFunds (an error reaches the method's
`except` clause, hence `False`); a zero portfolio value makes the ratio
division raise, hence `False`. -/
def check_cash_reserves (accountFetch : Except Unit ℚ) (netLiq : Except Unit ℚ)
    (required_percent : ℚ) : Bool :=
  match accountFetch with
  | .error _ => false
  | .ok available_cash =>
    let portfolio_value := calculate_portfolio_value netLiq
    if portfolio_value = 0 then false
    else
      let trade_value := portfolio_value * required_percent
      decide (MIN_CASH_RESERVE ≤ (available_cash - trade_value) / portfolio_value)

/-! ### Core unwind path (`PortfolioManager.handle_risk_off_core` and
`TradingSystem.monitor_risk_state`, main.py) -/

structure OrderEvent where
  symbol : String
  action : Action
  quantity : ℤ
  deriving Repr, DecidableEq

/-- Modelled from the spec: `OrderManager.place_order_async` is called by
`PortfolioManager.handle_risk_off_core` and `build_core_position` but is
defined nowhere in the repository; per the spec's submission contract
(§4.4/§6, `submitOrder`) it submits one brand-new order with the given
symbol, action and quantity. -/
def place_order_async (symbol : String) (action : Action) (quantity : ℤ) :
    OrderEvent :=
  ⟨symbol, action, quantity⟩

/-- Observable effects of one `handle_risk_off_core` call: the orders handed
to the brokerage and the `UnwindCycle` records (symbol, base price) appended
through `db.record_unwind_cycle`. -/
structure UnwindEffects where
  orders : List OrderEvent
  unwindRecords : List (String × ℚ)
  deriving Repr, DecidableEq

/-- `PortfolioManager.handle_risk_off_core`: when the brokerage reports a
positive position, sell that entire position and append one `UnwindCycle`
record at the store's latest price. -/
def handle_risk_off_core (symbol : String) (position : ℤ) (latest_price : ℚ) :
    UnwindEffects :=
  if 0 < position then
    ⟨[place_order_async symbol .SELL position], [(symbol, latest_price)]⟩
  else ⟨[], []⟩

/-- One symbol's slice of a `TradingSystem.monitor_risk_state` loop iteration
(main.py): read the latest recorded risk state and run the unwind handler
exactly when it is `RISK_OFF`. -/
def monitor_risk_state_symbol (latestRiskState : Option RiskStateV)
    (symbol : String) (position : ℤ) (latest_price : ℚ) : UnwindEffects :=
  if latestRiskState = some .RISK_OFF then
    handle_risk_off_core symbol position latest_price
  else ⟨[], []⟩

/-- What one control-loop evaluation observes for a symbol: the recorded risk
state, the brokerage position and the store's latest price. -/
structure TickObs where
  riskState : Option RiskStateV
  position : ℤ
  price : ℚ
  deriving Repr, DecidableEq

/-- The unwind orders emitted over a run of consecutive control-loop
evaluations for one symbol. -/
def runRiskEpisode (symbol : String) (ticks : List TickObs) : List OrderEvent :=
  ticks.flatMap fun t =>
    (monitor_risk_state_symbol t.riskState symbol t.position t.price).orders

/-! ## Theorems -/

/-- C2, counterexample: with account value 100, target weight 0.05 (SOXL),
order-size fraction 0.01 and retain fraction 0.25 — all positive — a holding
of 1 share priced at 10 (current percentage 0.1, beyond the target) makes the
computation return `cycles_remaining = -20 < 0`: the value is not clamped to
be nonnegative. -/
theorem cycles_remaining_not_clamped :
    (calculate_core_building_requirements 0.05 100 0.01 0.25 1 10).map
        (fun r => r.cycles_remaining) = some (-20) ∧
      (-20 : ℤ) < 0 ∧ (0 : ℚ) < 100 ∧ (0 : ℚ) < 0.01 ∧ (0 : ℚ) < 0.25 := by
  refine ⟨?_, by norm_num, by norm_num, by norm_num, by norm_num⟩
  have h1 : (100 : ℚ) * 0.01 * 0.25 ≠ 0 := by norm_num
  simp only [calculate_core_building_requirements, if_neg h1, Option.map_some']
  norm_num [pyInt]

/-- C2, amended: for positive account value, order-size fraction and retain
fraction the computation succeeds and satisfies
`cycles_completed + cycles_remaining = total_cycles_needed` with the freshly
recomputed total, but `cycles_remaining` is `total − completed` without any
clamp (it can be negative, see the counterexample). -/
theorem cycles_sum_invariant (core_target account_value osf rf position price : ℚ)
    (ha : 0 < account_value) (ho : 0 < osf) (hr : 0 < rf) :
    ∃ r, calculate_core_building_requirements core_target account_value osf rf
        position price = some r ∧
      r.cycles_completed + r.cycles_remaining = r.total_cycles_needed := by
  have hvpc : account_value * osf * rf ≠ 0 := by positivity
  simp only [calculate_core_building_requirements, if_neg hvpc]
  exact ⟨_, rfl, by dsimp only; omega⟩

/-- Witness for `cycles_sum_invariant` at the counterexample's input. -/
theorem cycles_sum_invariant_witness :
    ∃ r, calculate_core_building_requirements 0.05 100 0.01 0.25 1 10 = some r ∧
      r.cycles_completed + r.cycles_remaining = r.total_cycles_needed :=
  cycles_sum_invariant 0.05 100 0.01 0.25 1 10 (by norm_num) (by norm_num)
    (by norm_num)

/-- C5: for every combination of readings and previous recorded state, the
risk-state evaluation resolves exactly as the spec's six precedence rules
(first match wins) prescribe, both in the resulting state and in the emitted
price milestone. -/
theorem check_risk_state_follows_precedence (rsiState : Option RsiReadings)
    (cpFetch yhFetch athFetch : Except Unit ℚ)
    (dbPrev : Except Unit (Option RiskStateV)) :
    (check_risk_state rsiState cpFetch yhFetch athFetch dbPrev).state =
      (specRiskRules (readingsOf rsiState cpFetch yhFetch athFetch)
        (get_last_risk_state dbPrev)).1 ∧
    (check_risk_state rsiState cpFetch yhFetch athFetch dbPrev).milestone =
      (specRiskRules (readingsOf rsiState cpFetch yhFetch athFetch)
        (get_last_risk_state dbPrev)).2 := by
  rcases rsiState with _ | rsi <;> rcases cpFetch with _ | cp <;>
    rcases yhFetch with _ | yh <;>
    simp only [check_risk_state, specRiskRules, readingsOf] <;>
    first
      | (split_ifs <;> simp_all)
      | simp_all

/-- C6, counterexample: with indicators and prices available (weekly RSI 50,
daily RSI 25, price 100 below the year high 200 and the all-time high 300),
an error raised by the previous-state query makes `get_last_risk_state`
default the previous state to RISK_OFF, after which the daily-RSI rule
resolves to RISK_ON — the error is not mapped to a RISK_OFF result. -/
theorem risk_state_error_not_risk_off :
    (check_risk_state (some ⟨50, 25, 50⟩) (.ok 100) (.ok 200) (.ok 300)
        (.error ())).state = .RISK_ON ∧
      RiskStateV.RISK_ON ≠ RiskStateV.RISK_OFF := by
  constructor
  · simp only [check_risk_state, get_all_time_high, get_last_risk_state]
    norm_num
  · simp

/-- C6, amended: the evaluation is total and never propagates an error; an
unavailable RSI state or an error fetching the current price or year high is
mapped to RISK_OFF.  An error fetching the previous recorded state, however,
only defaults the previous state to RISK_OFF, from which the evaluation may
still resolve to RISK_ON (see the counterexample). -/
theorem check_risk_state_fail_safe (rsi : RsiReadings) (cp : ℚ)
    (cpFetch yhFetch athFetch : Except Unit ℚ)
    (dbPrev : Except Unit (Option RiskStateV)) :
    (check_risk_state none cpFetch yhFetch athFetch dbPrev).state = .RISK_OFF ∧
    (check_risk_state (some rsi) (.error ()) yhFetch athFetch dbPrev).state =
      .RISK_OFF ∧
    (check_risk_state (some rsi) (.ok cp) (.error ()) athFetch dbPrev).state =
      .RISK_OFF := by
  refine ⟨rfl, rfl, rfl⟩

/-- C7, counterexample: with the most recent recorded state RISK_OFF and
weekly RSI 75, the evaluation resolves to RISK_OFF — no change — yet
`log_risk_state_change` still appends a new RISK_OFF record. -/
theorem risk_record_appended_without_change :
    (check_risk_state (some ⟨75, 50, 50⟩) (.ok 100) (.ok 200) (.ok 300)
        (.ok (some .RISK_OFF))).state = .RISK_OFF ∧
    get_last_risk_state (.ok (some .RISK_OFF)) = .RISK_OFF ∧
    (check_risk_state (some ⟨75, 50, 50⟩) (.ok 100) (.ok 200) (.ok 300)
        (.ok (some .RISK_OFF))).logged = some .RISK_OFF ∧
    some RiskStateV.RISK_OFF ≠ (none : Option RiskStateV) := by
  refine ⟨?_, rfl, ?_, by simp⟩ <;>
    · simp only [check_risk_state, get_all_time_high, get_last_risk_state]
      norm_num

/-- C7, amended: whenever no record is appended the resolved state equals the
previously recorded one (so every actual change is recorded), but the
converse fails: the RISK_OFF rules 1–4 and the error path append a record
even when the resolved state equals the previous one (see the
counterexample). -/
theorem no_record_means_no_change (rsiState : Option RsiReadings)
    (cpFetch yhFetch athFetch : Except Unit ℚ)
    (dbPrev : Except Unit (Option RiskStateV))
    (h : (check_risk_state rsiState cpFetch yhFetch athFetch dbPrev).logged =
      none) :
    (check_risk_state rsiState cpFetch yhFetch athFetch dbPrev).state =
      get_last_risk_state dbPrev := by
  rcases rsiState with _ | rsi <;> rcases cpFetch with _ | cp <;>
    rcases yhFetch with _ | yh <;>
    simp only [check_risk_state] at h ⊢ <;>
    first
      | (split_ifs at h ⊢ <;> simp_all)
      | simp_all

/-- Witness for `no_record_means_no_change`: a quiet re-evaluation (weekly
RSI 50, daily RSI 50, previous state RISK_OFF) appends nothing and keeps the
recorded state. -/
theorem no_record_means_no_change_witness :
    (check_risk_state (some ⟨50, 50, 50⟩) (.ok 100) (.ok 200) (.ok 300)
        (.ok (some .RISK_OFF))).state =
      get_last_risk_state (.ok (some .RISK_OFF)) :=
  no_record_means_no_change (some ⟨50, 50, 50⟩) (.ok 100) (.ok 200) (.ok 300)
    (.ok (some .RISK_OFF)) (by norm_num [check_risk_state, get_all_time_high,
      get_last_risk_state])

/-- C3, counterexample: for an order the store reports as FILLED — a terminal
status — `cancel_order` does not return failure without side effects: it
requests brokerage cancellation and immediately records CANCELLED, returning
success, without waiting for any confirmation. -/
theorem cancel_terminal_order_not_rejected :
    cancel_order (some .FILLED) true = ⟨true, true, some .CANCELLED⟩ ∧
      OrderStatus.isTerminal .FILLED = true ∧
      (⟨true, true, some .CANCELLED⟩ : CancelResult) ≠ ⟨false, false, none⟩ := by
  refine ⟨rfl, rfl, by simp⟩

/-- C3, amended: `cancel_order` returns failure without side effect exactly
when the order is unknown; for any known order — terminal or not — it
requests brokerage cancellation and, as soon as that call returns (not upon
any asynchronous confirmation), records the order as CANCELLED and reports
success; if the cancellation call raises it reports failure with no status
written. -/
theorem cancel_order_behaviour (lookup : Option OrderStatus) (ibOk : Bool) :
    (lookup = none → cancel_order lookup ibOk = ⟨false, false, none⟩) ∧
    (∀ st, lookup = some st →
      (cancel_order lookup ibOk).cancelRequested = true ∧
      (ibOk = true → cancel_order lookup ibOk = ⟨true, true, some .CANCELLED⟩) ∧
      (ibOk = false → cancel_order lookup ibOk = ⟨false, true, none⟩)) := by
  rcases lookup with _ | st <;> rcases ibOk <;>
    simp [cancel_order]

/-- Witness for `cancel_order_behaviour`: an unknown order and a known
SUBMITTED order at a succeeding brokerage call. -/
theorem cancel_order_behaviour_witness :
    cancel_order none true = ⟨false, false, none⟩ ∧
      cancel_order (some .SUBMITTED) true = ⟨true, true, some .CANCELLED⟩ :=
  ⟨(cancel_order_behaviour none true).1 rfl,
    (((cancel_order_behaviour (some .SUBMITTED) true).2 .SUBMITTED rfl).2.1) rfl⟩

/-- C4, counterexample: an attempt sequence whose first brokerage attempt
raises a terminal rejection and whose second succeeds leads the retry
decorator — which retries on any exception — to place the order on the second
attempt: the terminal rejection is retried, contrary to the claim. -/
theorem terminal_rejection_is_retried :
    retryable_place_order [.raiseTerminal, .ok] = .placed 2 ∧ (2 : ℕ) ≠ 1 := by
  exact ⟨rfl, by simp⟩

/-- At least one attempt remaining, the retry loop consumes at most
`used + remaining` attempts in total. -/
theorem retryLoop_attempts_le (outcomes : List Attempt) :
    ∀ used remaining, 1 ≤ remaining →
      (retryLoop outcomes used remaining).attempts ≤ used + remaining := by
  induction outcomes with
  | nil =>
    intro used remaining h
    simp only [retryLoop, RetryResult.attempts]
    omega
  | cons a rest ih =>
    intro used remaining h
    cases a with
    | ok =>
      simp only [retryLoop, RetryResult.attempts]
      omega
    | raiseTransient =>
      simp only [retryLoop]
      split
      · simp only [RetryResult.attempts]; omega
      · have := ih (used + 1) (remaining - 1) (by omega)
        omega
    | raiseTerminal =>
      simp only [retryLoop]
      split
      · simp only [RetryResult.attempts]; omega
      · have := ih (used + 1) (remaining - 1) (by omega)
        omega

/-- C4, amended: brokerage placement is attempted at most 3 times; the run
yields at most one resulting order; two transient failures followed by a
success yield exactly one order after exactly 3 attempts; every backoff delay
lies between the 2-second base and the 10-second cap.  The retry predicate,
however, fires on any raised exception, without distinguishing transient
failures from terminal rejections (see the counterexample). -/
theorem retry_bounded_backoff (outcomes : List Attempt) :
    (retryable_place_order outcomes).attempts ≤ 3 ∧
    (retryable_place_order outcomes).ordersPlaced ≤ 1 ∧
    retryable_place_order [.raiseTransient, .raiseTransient, .ok] = .placed 3 ∧
    (∀ n, 2 ≤ retryWait n ∧ retryWait n ≤ 10) := by
  refine ⟨?_, ?_, rfl, ?_⟩
  · have := retryLoop_attempts_le outcomes 0 3 (by omega)
    simpa [retryable_place_order] using this
  · cases retryable_place_order outcomes <;> simp [RetryResult.ordersPlaced]
  · intro n
    constructor
    · exact le_max_left _ _
    · exact max_le (by norm_num) (min_le_right _ _)

/-- C1: evaluating the risk-off handler over two consecutive control-loop
ticks with unchanged state (recorded state RISK_OFF, core holding 100 shares
at price 10 both times) emits two unwind sell orders, each for the entire
100-share holding; the configured `CORE_UNWIND_PERCENT` fraction (5 shares)
is used nowhere. -/
theorem unwind_repeats_and_sells_everything :
    runRiskEpisode "SOXL"
        [⟨some .RISK_OFF, 100, 10⟩, ⟨some .RISK_OFF, 100, 10⟩] =
      [⟨"SOXL", .SELL, 100⟩, ⟨"SOXL", .SELL, 100⟩] ∧
    CORE_UNWIND_PERCENT * 100 = 5 ∧ (5 : ℚ) ≠ 100 := by
  refine ⟨rfl, by norm_num [CORE_UNWIND_PERCENT], by norm_num⟩

/-- Python truncation of an integer-valued rational is that integer. -/
theorem pyInt_intCast (n : ℤ) : pyInt (n : ℚ) = n := by
  unfold pyInt
  split <;> simp

/-- C8: for a BUY order at a positive price against a positive portfolio
value, the position-limit check is inclusive at the boundary and exclusive
beyond it: a resulting position value equal to
`(target_weight + max_position_buffer) * portfolio_value` passes (and, when
the cash-reserve condition also holds, the order is approved), while any
resulting position value strictly above that boundary is denied. -/
theorem position_buffer_boundary (position quantity : ℤ)
    (total_value price cash core_target : ℚ)
    (hp : 0 < price) (ht : 0 < total_value) (hc : 0 ≤ core_target) :
    (((position + quantity : ℤ) : ℚ) * price =
        total_value * (core_target + MAX_POSITION_BUFFER) →
      ¬((cash - (quantity : ℚ) * price) / total_value < MIN_CASH_RESERVE) →
      verify_position_limits (.ok position) (.ok total_value) (.ok price)
        (.ok cash) core_target quantity .BUY = true) ∧
    (total_value * (core_target + MAX_POSITION_BUFFER) <
        ((position + quantity : ℤ) : ℚ) * price →
      verify_position_limits (.ok position) (.ok total_value) (.ok price)
        (.ok cash) core_target quantity .BUY = false) := by
  have hbuf : (0 : ℚ) ≤ MAX_POSITION_BUFFER := by norm_num [MAX_POSITION_BUFFER]
  have hL : 0 ≤ total_value * (core_target + MAX_POSITION_BUFFER) :=
    mul_nonneg ht.le (add_nonneg hc hbuf)
  constructor
  · intro heq hcash
    have hpq : total_value * (core_target + MAX_POSITION_BUFFER) / price =
        ((position + quantity : ℤ) : ℚ) := by
      rw [div_eq_iff hp.ne']
      linarith [heq]
    simp only [verify_position_limits, if_neg hp.ne', hpq, pyInt_intCast]
    simp [if_neg ht.ne', if_neg hcash]
  · intro hlt
    have hdiv : total_value * (core_target + MAX_POSITION_BUFFER) / price <
        ((position + quantity : ℤ) : ℚ) := by
      rw [div_lt_iff₀ hp]
      linarith [hlt]
    have hfloor : pyInt (total_value * (core_target + MAX_POSITION_BUFFER) / price) <
        position + quantity := by
      have h0 : 0 ≤ total_value * (core_target + MAX_POSITION_BUFFER) / price :=
        div_nonneg hL hp.le
      rw [pyInt, if_pos h0]
      exact_mod_cast Int.floor_lt.mpr (by exact_mod_cast hdiv)
    simp only [verify_position_limits, if_neg hp.ne']
    simp [hfloor]

/-- Witness for `position_buffer_boundary`: portfolio value 1000, price 10,
target 0.05, buffer 0.05, position 5 — buying 5 shares lands exactly on the
100-dollar boundary and is approved, buying 6 exceeds it and is denied. -/
theorem position_buffer_boundary_witness :
    verify_position_limits (.ok 5) (.ok 1000) (.ok 10) (.ok 1000) 0.05 5
        .BUY = true ∧
    verify_position_limits (.ok 5) (.ok 1000) (.ok 10) (.ok 1000) 0.05 6
        .BUY = false :=
  ⟨(position_buffer_boundary 5 5 1000 10 1000 0.05 (by norm_num) (by norm_num)
      (by norm_num)).1 (by norm_num [MAX_POSITION_BUFFER])
      (by norm_num [MIN_CASH_RESERVE]),
   (position_buffer_boundary 5 6 1000 10 1000 0.05 (by norm_num) (by norm_num)
      (by norm_num)).2 (by norm_num [MAX_POSITION_BUFFER])⟩

/-- C9, counterexample: at 09:30:00 (second 34200), the boundary from
PREMARKET into RTH, an active premarket order is not cancelled — the handler
cancels nothing while any session is active — even though PREMARKET has
`cancel_at_end = true`. -/
theorem boundary_crossing_cancels_nothing :
    handle_session_transition 34200 [(1, ⟨30000, "SOXL", .BUY, 10, 50⟩)] = [] ∧
    (ORDER_SESSIONS.find? fun p => p.1 = "PREMARKET").map
        (fun p => p.2.cancel_at_end) = some true ∧
    get_current_session 34200 = some ("RTH", ⟨34200, 57600, true⟩) := by
  refine ⟨rfl, rfl, rfl⟩

/-- C9, amended: an active order is cancelled only when the wall clock lies
outside every session window — the order's own session and the per-session
`cancel_at_end` flags never trigger a cancellation while any session is
active, so an in-session boundary crossing cancels nothing; when cancellation
does fire and cross-session resubmission is enabled, the handler cancels the
order and submits an equivalent brand-new order (same symbol, action,
quantity, price) rather than reusing the old identity. -/
theorem session_cancel_only_outside (t now : ℕ) (p : String × SessionCfg)
    (oid : ℕ) (info : ActiveOrderInfo) :
    (get_current_session now = some p → should_cancel_order t now = false) ∧
    (get_current_session now = none →
      handle_session_transition now [(oid, info)] =
        [.cancel oid,
         .submitNew info.symbol info.action info.quantity info.price]) := by
  constructor
  · intro h
    have hp := List.find?_some h
    simp only [decide_eq_true_eq] at hp
    simp only [should_cancel_order, h]
    simp [show ¬(p.2.stop ≤ now) from not_le.mpr hp.2]
  · intro h
    simp [handle_session_transition, should_cancel_order, h,
      RESUBMIT_ORDERS_ACROSS_SESSIONS]

/-- Witness for `session_cancel_only_outside`: inside RTH (10:00:00) nothing
is cancelled; outside all sessions (20:00:00) the order is cancelled and an
equivalent new one is submitted. -/
theorem session_cancel_only_outside_witness :
    should_cancel_order 0 36000 = false ∧
    handle_session_transition 72000 [(7, ⟨50000, "TQQQ", .SELL, 3, 40⟩)] =
      [.cancel 7, .submitNew "TQQQ" .SELL 3 40] :=
  ⟨(session_cancel_only_outside 0 36000 ("RTH", ⟨34200, 57600, true⟩) 7
      ⟨50000, "TQQQ", .SELL, 3, 40⟩).1 rfl,
   (session_cancel_only_outside 0 72000 ("RTH", ⟨34200, 57600, true⟩) 7
      ⟨50000, "TQQQ", .SELL, 3, 40⟩).2 rfl⟩

/-- C10, counterexample: a failed price lookup inside the exposure check is
defaulted to zero rather than denied: with 100 stored shares and portfolio
value 1000, the check approves (position value computes to 0 ≤ 100), against
the claim that every internal lookup failure yields deny. -/
theorem exposure_check_allows_on_price_error :
    check_exposure_limit (.ok [100]) (.error ()) (.ok 1000) "TRADING" = true ∧
      true ≠ false := by
  refine ⟨?_, by simp⟩
  simp only [check_exposure_limit, calculate_position_value, get_current_price,
    calculate_portfolio_value, MAX_EXPOSURE_PERCENT, CORE_TARGET_PERCENT]
  rw [if_neg (by decide : ¬(("TRADING" : String) = "CORE"))]
  norm_num

/-- C10, amended: the guardrails deny on errors that reach their own bodies —
a failed account query in the cash-reserve check, a failed portfolio query
there (zero value makes its ratio division raise), a failed account query in
the position-limit check, and a failed price lookup there (defaulted to zero,
the share-limit division raises) — but lookups defaulted inside helper
functions do not deny: the exposure check approves on a failed price lookup
(see the counterexample). -/
theorem guardrails_deny_on_own_errors (netLiq acct : Except Unit ℚ)
    (rp tv : ℚ) (pf : Except Unit ℤ) (prF cf : Except Unit ℚ) (ct : ℚ)
    (q : ℤ) (a : Action) :
    check_cash_reserves (.error ()) netLiq rp = false ∧
    check_cash_reserves acct (.error ()) rp = false ∧
    verify_position_limits pf (.error ()) prF cf ct q a = false ∧
    verify_position_limits pf (.ok tv) (.error ()) cf ct q a = false := by
  refine ⟨rfl, ?_, rfl, ?_⟩
  · cases acct with
    | error e => rfl
    | ok c => simp [check_cash_reserves, calculate_portfolio_value]
  · simp [verify_position_limits]

end MasterTrader
